import Mathlib

/-!
# Verification of the chat-ui generation core

A shallow embedding of the generation core of the `ialacol/chat-ui`
repository, together with theorems settling the specification's claims
about it.  The embedded pieces are:

* the JavaScript string primitives used by the post-processing code
  (`startsWith`/`endsWith`/`slice`/`trimEnd`, and the repository helpers
  `trimPrefix` / `trimSuffix`);
* the post-processing of raw generated text performed at the end of
  `generateFromDefaultEndpoint` (called `clean` by the specification);
* the buffered response handling of `generateFromDefaultEndpoint`
  (status check, empty-body check, JSON decoding, extraction of
  `results[0].generated_text`);
* the parameter merge `{...defaults, ...overrides, return_full_text: false}`;
* the async-generator `streamToAsyncIterable` together with its consumer
  protocol;
* the OpenAI-compatible streaming consumption loop with its abort check;
* the zod `modelConfig` schema of `src/lib/server/models.ts`.

JavaScript strings are modelled as Lean `String`s, operated on through
their underlying character lists (one `Char` per code unit; all inputs
of interest are ASCII, where the two notions agree).
-/

namespace ChatUI

/-- JavaScript whitespace (the WhiteSpace and LineTerminator productions),
as tested by `String.prototype.trimEnd`. -/
def isJsWhitespace (c : Char) : Bool :=
  c = ' ' || c = '\t' || c = '\n' || c = '\r' ||
  c = '\x0b' || c = '\x0c' || c = ' ' || c = '﻿'

/-- JavaScript `s.startsWith(p)`. -/
def jsStartsWith (s p : String) : Bool :=
  p.data.isPrefixOf s.data

/-- JavaScript `s.endsWith(p)`. -/
def jsEndsWith (s p : String) : Bool :=
  p.data.isSuffixOf s.data

/-- JavaScript `s.trimEnd()`: remove trailing whitespace. -/
def jsTrimEnd (s : String) : String :=
  ⟨(s.data.reverse.dropWhile isJsWhitespace).reverse⟩

/-- JavaScript `s.slice(0, e)` for a possibly negative end index `e`:
a negative `e` counts from the end of the string (clamped at 0), and in
particular `s.slice(0, -0) = s.slice(0, 0) = ""`. -/
def jsSliceTo (s : String) (e : Int) : String :=
  let len : Int := s.data.length
  let stop : Int := if e < 0 then max (len + e) 0 else min e len
  ⟨s.data.take stop.toNat⟩

/-- JavaScript `s.slice(n)` for a nonnegative start index. -/
def jsSliceFrom (s : String) (n : Nat) : String :=
  ⟨s.data.drop n⟩

/-- Modelled from the spec: the helper `trimPrefix(input, prefix)` of
`$lib/utils/trimPrefix` (the module itself is outside `src/`): strip the
echoed prefix when the input begins with it, otherwise return the input
unchanged. -/
def trimPre (s p : String) : String :=
  if jsStartsWith s p then jsSliceFrom s p.data.length else s

/-- Modelled from the spec: the helper `trimSuffix(input, end)` of
`$lib/utils/trimSuffix` (the module itself is outside `src/`): strip the
trailing occurrence when the input ends with it, otherwise return the
input unchanged. -/
def trimSuf (s p : String) : String :=
  if jsEndsWith s p then ⟨s.data.take (s.data.length - p.data.length)⟩ else s

/-- Modelled from the spec: the canonical separator token
`PUBLIC_SEP_TOKEN` of `$lib/constants/publicSepToken` (outside `src/`). -/
def PUBLIC_SEP_TOKEN : String := "</s>"

/-- The beginning-of-text marker stripped by `generateFromDefaultEndpoint`. -/
def START_TOKEN : String := "<|startoftext|>"

/-- The end-of-text marker appended to the stop-sequence list by
`generateFromDefaultEndpoint`. -/
def END_TOKEN : String := "<|endoftext|>"

/-- One iteration of the stop-sequence loop of
`generateFromDefaultEndpoint`:
`if (generated_text.endsWith(stop)) generated_text = generated_text.slice(0, -stop.length).trimEnd()`. -/
def stopStep (g : String) (stop : String) : String :=
  if jsEndsWith g stop then jsTrimEnd (jsSliceTo g (-(stop.data.length : Int))) else g

/-- The post-processing of raw generated text performed by
`generateFromDefaultEndpoint` (the specification's `clean`):

```
let generated_text = trimSuffix(
  trimPrefix(trimPrefix(results[0].generated_text, "<|startoftext|>"), prompt),
  PUBLIC_SEP_TOKEN).trimEnd();
for (const stop of [...(newParameters?.stop ?? []), "<|endoftext|>"]) {
  if (generated_text.endsWith(stop)) {
    generated_text = generated_text.slice(0, -stop.length).trimEnd();
  }
}
```
-/
def clean (rawText prompt : String) (stop : List String) : String :=
  (stop ++ [END_TOKEN]).foldl stopStep
    (jsTrimEnd (trimSuf (trimPre (trimPre rawText START_TOKEN) prompt) PUBLIC_SEP_TOKEN))

/-! ## The five ordered post-processing steps, as the specification lists them -/

/-- Spec step 1: strip a leading beginning-of-text marker if present. -/
def stripStartMarker (s : String) : String := trimPre s START_TOKEN

/-- Spec step 2: strip the echoed prompt if the raw text begins with it. -/
def stripPromptEcho (s prompt : String) : String := trimPre s prompt

/-- Spec step 3: strip a trailing canonical separator token if present. -/
def stripSepToken (s : String) : String := trimSuf s PUBLIC_SEP_TOKEN

/-- Spec step 4: trim trailing whitespace. -/
def trimTrailing (s : String) : String := jsTrimEnd s

/-- Spec step 5: for each stop sequence, then the end-of-text marker, remove
it as a suffix when the text ends with it and re-trim trailing whitespace. -/
def trimStopSequences (s : String) (stop : List String) : String :=
  (stop ++ [END_TOKEN]).foldl stopStep s

/-- The specification's ordered pipeline: steps 1..5 composed in order. -/
def cleanSpecOrdered (rawText prompt : String) (stop : List String) : String :=
  trimStopSequences
    (trimTrailing (stripSepToken (stripPromptEcho (stripStartMarker rawText) prompt)))
    stop

/-! ## JSON values and `JSON.parse`

`generateFromDefaultEndpoint` decodes the buffered response body with the
platform builtin `JSON.parse` (not repository code).  It is modelled here on
the grammar relevant to backend responses: strings without escape sequences
and decimal numbers; a body outside this grammar is treated as a parse
failure, exactly as `JSON.parse` throwing a `SyntaxError`. -/

/-- JSON values.  Object fields keep source order; duplicate keys are
resolved by `jlookup` with the last occurrence winning, as in JavaScript. -/
inductive Json where
  | null
  | bool (b : Bool)
  | num (q : ℚ)
  | str (s : String)
  | arr (xs : List Json)
  | obj (fields : List (String × Json))

/-- JavaScript property read on an object literal: the last occurrence of a
key wins. -/
def jget {α : Type} (k : String) : List (String × α) → Option α
  | [] => none
  | (k2, v) :: rest =>
    match jget k rest with
    | some v2 => some v2
    | none => if k2 = k then some v else none

/-- Last-wins lookup in a JSON object. -/
def jlookup (k : String) (fs : List (String × Json)) : Option Json :=
  jget k fs

/-- Skip JSON insignificant whitespace. -/
def skipWs (cs : List Char) : List Char :=
  cs.dropWhile (fun c => c = ' ' || c = '\t' || c = '\n' || c = '\r')

def isDigit (c : Char) : Bool := '0' ≤ c && c ≤ '9'

def digitsToNat : List Char → Nat → Nat
  | [], acc => acc
  | c :: cs, acc => digitsToNat cs (acc * 10 + (c.toNat - '0'.toNat))

/-- Parse the body of a JSON string literal (after the opening quote), up to
the closing quote.  Escape sequences are outside the modelled grammar. -/
def parseStrBody : List Char → Option (String × List Char)
  | [] => none
  | '"' :: rest => some ("", rest)
  | '\\' :: _ => none
  | c :: rest =>
    match parseStrBody rest with
    | some (s, r) => some (⟨c :: s.data⟩, r)
    | none => none

/-- Parse a JSON number (optional sign, digits, optional fraction). -/
def parseNum (cs : List Char) : Option (ℚ × List Char) :=
  let signed := match cs with | '-' :: r => (true, r) | _ => (false, cs)
  let ds := signed.2.takeWhile isDigit
  let rest := signed.2.dropWhile isDigit
  if ds.isEmpty then none
  else
    let intPart : ℚ := (digitsToNat ds 0 : ℚ)
    match rest with
    | '.' :: r2 =>
      let fs := r2.takeWhile isDigit
      let rest2 := r2.dropWhile isDigit
      if fs.isEmpty then none
      else
        let q := intPart + (digitsToNat fs 0 : ℚ) / ((10 : ℚ) ^ fs.length)
        some (if signed.1 then -q else q, rest2)
    | _ => some (if signed.1 then -intPart else intPart, rest)

mutual

/-- Recursive-descent JSON value parser; the fuel bounds nesting depth. -/
def parseVal : Nat → List Char → Option (Json × List Char)
  | 0, _ => none
  | fuel + 1, cs =>
    match skipWs cs with
    | 'n' :: 'u' :: 'l' :: 'l' :: rest => some (.null, rest)
    | 't' :: 'r' :: 'u' :: 'e' :: rest => some (.bool true, rest)
    | 'f' :: 'a' :: 'l' :: 's' :: 'e' :: rest => some (.bool false, rest)
    | '"' :: rest =>
      (match parseStrBody rest with
       | some (s, r) => some (.str s, r)
       | none => none)
    | '[' :: rest =>
      (match skipWs rest with
       | ']' :: r2 => some (.arr [], r2)
       | r2 =>
         match parseArrItems fuel r2 with
         | some (xs, r3) => some (.arr xs, r3)
         | none => none)
    | '\x7b' :: rest =>
      (match skipWs rest with
       | '\x7d' :: r2 => some (.obj [], r2)
       | r2 =>
         match parseObjItems fuel r2 with
         | some (fs, r3) => some (.obj fs, r3)
         | none => none)
    | cs2 =>
      (match parseNum cs2 with
       | some (q, r) => some (.num q, r)
       | none => none)

/-- Parse the items of a non-empty JSON array, up to the closing bracket. -/
def parseArrItems : Nat → List Char → Option (List Json × List Char)
  | 0, _ => none
  | fuel + 1, cs =>
    match parseVal fuel cs with
    | none => none
    | some (v, rest) =>
      match skipWs rest with
      | ',' :: r2 =>
        (match parseArrItems fuel r2 with
         | some (xs, r3) => some (v :: xs, r3)
         | none => none)
      | ']' :: r2 => some ([v], r2)
      | _ => none

/-- Parse the fields of a non-empty JSON object, up to the closing brace. -/
def parseObjItems : Nat → List Char → Option (List (String × Json) × List Char)
  | 0, _ => none
  | fuel + 1, cs =>
    match skipWs cs with
    | '"' :: rest =>
      (match parseStrBody rest with
       | none => none
       | some (k, r1) =>
         match skipWs r1 with
         | ':' :: r2 =>
           (match parseVal fuel r2 with
            | none => none
            | some (v, r3) =>
              match skipWs r3 with
              | ',' :: r4 =>
                (match parseObjItems fuel r4 with
                 | some (fs, r5) => some ((k, v) :: fs, r5)
                 | none => none)
              | '\x7d' :: r4 => some ([(k, v)], r4)
              | _ => none)
         | _ => none)
    | _ => none

end

/-- `JSON.parse`: parse a full JSON document, requiring the whole input to
be consumed (up to trailing whitespace).  `none` models a `SyntaxError`. -/
def jsonParse (s : String) : Option Json :=
  match parseVal (s.data.length + 1) s.data with
  | some (j, rest) => if (skipWs rest).isEmpty then some j else none
  | none => none

/-! ## The buffered response path of `generateFromDefaultEndpoint` -/

/-- An HTTP response as the generation code observes it: a status code and
an optional body (a `fetch` response body is `null` for bodiless
responses); the body is modelled as its fully decoded text, matching the
read-and-UTF-8-decode loop of the source. -/
structure HttpResponse where
  status : Nat
  body : Option String
deriving DecidableEq

/-- `Response.ok`: the status is in the inclusive range 200..299. -/
def respOk (r : HttpResponse) : Bool :=
  200 ≤ r.status && r.status ≤ 299

/-- `await resp.text()`: the body text, `""` when the body is absent. -/
def respText (r : HttpResponse) : String :=
  r.body.getD ""

/-- How a generation request can fail. -/
inductive GenFailure where
  /-- `throw new Error(await resp.text())` on a non-2xx status. -/
  | upstream (body : String)
  /-- `throw new Error("Response body is empty")` on an absent body. -/
  | emptyBody (msg : String)
  /-- An unclassified runtime exception (`SyntaxError` from `JSON.parse`,
  or a `TypeError` from dereferencing `undefined`). -/
  | jsRuntime
deriving DecidableEq

/-- Count of upstream calls issued while serving one generation request. -/
structure TransportLog where
  calls : Nat
deriving DecidableEq

/-- Issue the single upstream request of `generateFromDefaultEndpoint`,
recording it in the transport log. -/
def fetchUpstream (resp : HttpResponse) (log : TransportLog) :
    HttpResponse × TransportLog :=
  (resp, ⟨log.calls + 1⟩)

/-- `results[0]`: index 0 of the parsed JSON document.  Indexing an array
takes its head; indexing a parsed object coerces `0` to the key `"0"`; any
other parsed value has no element `0` carrying a `generated_text`, so the
subsequent field access faults. -/
def jsIndexZero : Json → Option Json
  | .arr (x :: _) => some x
  | .obj fs => jlookup "0" fs
  | _ => none

/-- `results[0].generated_text`, demanded to be a string: anything else is
`undefined`-like and makes the following `startsWith` call throw. -/
def getGeneratedText : Json → Option String
  | .obj fs =>
    (match jlookup "generated_text" fs with
     | some (.str t) => some t
     | _ => none)
  | _ => none

/-- The response-handling tail of `generateFromDefaultEndpoint`, from the
moment the backend response is available: status check, body-presence
check, JSON decoding of the buffered body, extraction of
`results[0].generated_text`, and post-processing.  The function issues
exactly the one upstream request it was given a response for — the source
contains no retry construct. -/
def generateFromDefaultEndpoint (resp : HttpResponse) (prompt : String)
    (stop : List String) : Except GenFailure String × TransportLog :=
  let fetched := fetchUpstream resp ⟨0⟩
  let r := fetched.1
  let log := fetched.2
  if !respOk r then (.error (.upstream (respText r)), log)
  else
    match r.body with
    | none => (.error (.emptyBody "Response body is empty"), log)
    | some bodyText =>
      match jsonParse bodyText with
      | none => (.error .jsRuntime, log)
      | some results =>
        match jsIndexZero results with
        | none => (.error .jsRuntime, log)
        | some elt =>
          match getGeneratedText elt with
          | none => (.error .jsRuntime, log)
          | some t => (.ok (clean t prompt stop), log)

/-! ## The parameter merge

`const newParameters = { ...defaultModel.parameters, ...parameters,
return_full_text: false }`.  A JavaScript object literal with spreads is
modelled as the concatenation of the spread field lists followed by the
explicit field; property reads resolve with the last assignment winning
(`jget`). -/

/-- The merged parameter object of `generateFromDefaultEndpoint`. -/
def newParameters (defaults overrides : List (String × Json)) :
    List (String × Json) :=
  defaults ++ overrides ++ [("return_full_text", Json.bool false)]

/-! ## `streamToAsyncIterable`

The async generator

```
const reader = stream.getReader();
try {
  while (true) {
    const { done, value } = await reader.read();
    if (done) return;
    yield value;
  }
} finally {
  reader.releaseLock();
}
```

is modelled operationally.  The underlying pull-based reader is a queue of
values plus a count of `releaseLock` calls; the generator is driven by a
consumer that either iterates to completion, breaks out of the iteration
after some value, or throws after some value.  Per the async-generator
protocol, breaking out of (or throwing from) a `for await` loop closes the
iterator, which resumes the generator with a `return` completion, running
the `finally` block; normal completion (`done`) runs it directly. -/

/-- A pull-based reader: pending values plus a release counter. -/
structure ReaderState (α : Type) where
  queue : List α
  releaseCount : Nat

/-- `reader.releaseLock()`. -/
def releaseLock {α : Type} (r : ReaderState α) : ReaderState α :=
  ⟨r.queue, r.releaseCount + 1⟩

/-- What the consumer of the adapted iterable does. -/
inductive ConsumerPlan where
  /-- Iterate until the iterator reports completion. -/
  | consumeAll
  /-- Break out of the iteration after receiving `n + 1` values
  (`stopAfter 0` stops after the first value). -/
  | stopAfter (n : Nat)
  /-- Throw out of the loop body after receiving `n + 1` values. -/
  | failAfter (n : Nat)

/-- How the drive of the iterable ended. -/
inductive DriveOutcome where
  | completed
  | stopped
  | errored
deriving DecidableEq

/-- Drive `streamToAsyncIterable` against a consumer: each step reads from
the reader; `done` makes the generator return (running the `finally`);
otherwise the value is yielded to the consumer, which continues, breaks
(closing the generator, running the `finally`), or throws (likewise). -/
def streamToAsyncIterable {α : Type} :
    ConsumerPlan → List α → Nat → DriveOutcome × ReaderState α
  | _, [], c => (.completed, releaseLock ⟨[], c⟩)
  | .consumeAll, _ :: rest, c => streamToAsyncIterable .consumeAll rest c
  | .stopAfter 0, _ :: rest, c => (.stopped, releaseLock ⟨rest, c⟩)
  | .stopAfter (n + 1), _ :: rest, c => streamToAsyncIterable (.stopAfter n) rest c
  | .failAfter 0, _ :: rest, c => (.errored, releaseLock ⟨rest, c⟩)
  | .failAfter (n + 1), _ :: rest, c => streamToAsyncIterable (.failAfter n) rest c

/-! ## The OpenAI-compatible consumption loop

```
for await (const chunk of completion) {
  if (abortController.signal.aborted) { break; }
  controller.enqueue(chunk.choices[0].text);
}
controller.close();
```

with `cancel() { abortController.abort(); }`.  Each `for await` iteration
first awaits the next upstream chunk (one chunk request), then checks the
abort flag.  The loop body is synchronous, so on the single-threaded event
loop the `cancel()` callback can only run while the loop is suspended in
one of those awaits: an abort schedule is the 1-based index of the await
during which the signal fires.  The model returns the enqueued chunks and
the total number of chunk requests issued. -/

/-- Run the consumption loop.  `chunks` are the text deltas the upstream
iterator would deliver; `abortAt = some k` means the cancellation fires
while the loop awaits its `k`-th chunk request (`iter` is the index of the
next request, initially 1); `none` means it never fires. -/
def openaiStreamLoop : List String → Option Nat → Nat → List String × Nat
  | [], _, _ => ([], 1)
  | v :: rest, abortAt, iter =>
    let aborted : Bool := match abortAt with
      | some k => decide (k ≤ iter)
      | none => false
    if aborted then ([], 1)
    else
      let p := openaiStreamLoop rest abortAt (iter + 1)
      (v :: p.1, p.2 + 1)

/-! ## The `modelConfig` zod schema of `src/lib/server/models.ts`

The schema is embedded as a parser from JSON values to typed records.
zod's `.url()` check delegates to the host's URL parser; it is taken as a
parameter `urlOk`.  The environment-provided defaults (`HF_ACCESS_TOKEN`,
`OPENAI_API_KEY`) are an explicit `Env` record.  Where zod collects every
issue, this embedding reports the first one; success and the produced
value agree with the schema. -/

/-- The environment values read by `models.ts`. -/
structure Env where
  hfAccessToken : String
  openaiApiKey : String

/-- The `type` field of an OpenAI-compatible endpoint. -/
inductive OpenAICompletionType where
  | completions
  | chatCompletions
deriving DecidableEq

/-- A parsed endpoint: the tagged union produced by `combinedEndpoint`. -/
inductive Endpoint where
  | openaiCompatible (baseURL apiKey : String) (typ : OpenAICompletionType)
      (weight : Nat)
  | sagemaker (url accessKey secretKey : String) (sessionToken : Option String)
      (weight : Nat)
  | tgi (url authorization : String) (weight : Nat)
deriving DecidableEq

/-- `z.string()` at key `k`, `.optional()`: absent is fine, a present
non-string (including `null`) is a type error. -/
def getStrOpt (fs : List (String × Json)) (k : String) :
    Except String (Option String) :=
  match jlookup k fs with
  | none => .ok none
  | some (.str s) => .ok (some s)
  | some _ => .error (k ++ ": Expected string")

/-- `.min(1)` on an optional string. -/
def requireMin1 (k : String) : Option String → Except String (Option String)
  | none => .ok none
  | some s =>
    if 1 ≤ s.length then .ok (some s)
    else .error (k ++ ": String must contain at least 1 character(s)")

/-- `.url()` on an optional string. -/
def requireUrl (urlOk : String → Bool) (k : String) :
    Option String → Except String (Option String)
  | none => .ok none
  | some s => if urlOk s then .ok (some s) else .error (k ++ ": Invalid url")

/-- `z.number()` at key `k`, `.optional()`. -/
def getNumOpt (fs : List (String × Json)) (k : String) :
    Except String (Option ℚ) :=
  match jlookup k fs with
  | none => .ok none
  | some (.num q) => .ok (some q)
  | some _ => .error (k ++ ": Expected number")

/-- `.positive()` on an optional number. -/
def requirePositive (k : String) : Option ℚ → Except String (Option ℚ)
  | none => .ok none
  | some q =>
    if 0 < q then .ok (some q)
    else .error (k ++ ": Number must be greater than 0")

/-- `weight: z.number().int().positive().default(1)` from `commonEndpoint`. -/
def parseWeight (fs : List (String × Json)) : Except String Nat :=
  match jlookup "weight" fs with
  | none => .ok 1
  | some (.num q) =>
    if q.den = 1 then
      if 0 < q then .ok q.num.toNat
      else .error "weight: Number must be greater than 0"
    else .error "weight: Expected integer, received float"
  | some _ => .error "weight: Expected number"

/-- The `tgiEndpoint` object schema (host already checked by the caller):
required valid `url`, `authorization` defaulting to a bearer token built
from the environment. -/
def parseTgiEndpoint (urlOk : String → Bool) (env : Env)
    (fs : List (String × Json)) : Except String Endpoint := do
  let urlO ← getStrOpt fs "url"
  let url ← match urlO with
    | none => throw "url: Required"
    | some u => pure u
  if !urlOk url then throw "url: Invalid url"
  let authO ← getStrOpt fs "authorization"
  let auth := authO.getD ("Bearer " ++ env.hfAccessToken)
  if auth.length < 1 then
    throw "authorization: String must contain at least 1 character(s)"
  let weight ← parseWeight fs
  pure (.tgi url auth weight)

/-- The `sagemakerEndpoint` object schema. -/
def parseSagemakerEndpoint (urlOk : String → Bool)
    (fs : List (String × Json)) : Except String Endpoint := do
  let urlO ← getStrOpt fs "url"
  let url ← match urlO with
    | none => throw "url: Required"
    | some u => pure u
  if !urlOk url then throw "url: Invalid url"
  let akO ← getStrOpt fs "accessKey"
  let ak ← match akO with
    | none => throw "accessKey: Required"
    | some s => pure s
  if ak.length < 1 then
    throw "accessKey: String must contain at least 1 character(s)"
  let skO ← getStrOpt fs "secretKey"
  let sk ← match skO with
    | none => throw "secretKey: Required"
    | some s => pure s
  if sk.length < 1 then
    throw "secretKey: String must contain at least 1 character(s)"
  let sessionToken ← getStrOpt fs "sessionToken"
  let weight ← parseWeight fs
  pure (.sagemaker url ak sk sessionToken weight)

/-- The `openAICompatibleEndpoint` object schema. -/
def parseOpenAIEndpoint (urlOk : String → Bool) (env : Env)
    (fs : List (String × Json)) : Except String Endpoint := do
  let baseO ← getStrOpt fs "baseURL"
  let base := baseO.getD "https://api.openai.com/v1"
  if !urlOk base then throw "baseURL: Invalid url"
  let keyO ← getStrOpt fs "apiKey"
  let key := keyO.getD env.openaiApiKey
  let typO ← getStrOpt fs "type"
  let typ ← match typO with
    | none => pure OpenAICompletionType.chatCompletions
    | some "completions" => pure OpenAICompletionType.completions
    | some "chat_completions" => pure OpenAICompletionType.chatCompletions
    | some _ => throw "type: Invalid input"
  let weight ← parseWeight fs
  pure (.openaiCompatible base key typ weight)

/-- `combinedEndpoint`: the union of the three variant schemas (each merged
with `commonEndpoint`), re-dispatched by the `host` discriminator in its
transform; `host` absent selects the TGI variant, any other `host` value
fails every union branch. -/
def parseEndpoint (urlOk : String → Bool) (env : Env) :
    Json → Except String Endpoint
  | .obj fs =>
    (match jlookup "host" fs with
     | some (.str "openai-compatible") => parseOpenAIEndpoint urlOk env fs
     | some (.str "sagemaker") => parseSagemakerEndpoint urlOk fs
     | some (.str "tgi") => parseTgiEndpoint urlOk env fs
     | none => parseTgiEndpoint urlOk env fs
     | some _ => .error "host: Invalid input")
  | _ => .error "endpoints: Expected object"

/-- A parsed `parameters` object: the validated known fields plus the
unknown fields preserved opaquely by `.passthrough()`. -/
structure GenerationParameters where
  temperature : ℚ
  truncate : Nat
  max_new_tokens : Nat
  stop : Option (List String)
  top_p : Option ℚ
  top_k : Option ℚ
  repetition_penalty : Option ℚ
  passthrough : List (String × Json)

/-- The keys validated by the `parameters` schema; everything else passes
through. -/
def knownParameterKeys : List String :=
  ["temperature", "truncate", "max_new_tokens", "stop", "top_p", "top_k",
   "repetition_penalty"]

/-- `z.number().int().positive()` at a required key. -/
def parsePositiveInt (k : String) (fs : List (String × Json)) :
    Except String Nat :=
  match jlookup k fs with
  | none => .error (k ++ ": Required")
  | some (.num q) =>
    if q.den = 1 then
      if 0 < q then .ok q.num.toNat
      else .error (k ++ ": Number must be greater than 0")
    else .error (k ++ ": Expected integer, received float")
  | some _ => .error (k ++ ": Expected number")

/-- `stop: z.array(z.string())`. -/
def parseStringArray (k : String) : Json → Except String (List String)
  | .arr xs =>
    xs.mapM (fun j =>
      match j with
      | .str s => Except.ok s
      | _ => Except.error (k ++ ": Expected string"))
  | _ => .error (k ++ ": Expected array")

/-- The `parameters` object schema of `modelConfig`. -/
def parseParameters (fs : List (String × Json)) :
    Except String GenerationParameters := do
  let temperature ← match jlookup "temperature" fs with
    | none => throw "temperature: Required"
    | some (.num q) =>
      if q < 0 then
        throw "temperature: Number must be greater than or equal to 0"
      else if 1 < q then
        throw "temperature: Number must be less than or equal to 1"
      else pure q
    | some _ => throw "temperature: Expected number"
  let truncate ← parsePositiveInt "truncate" fs
  let max_new_tokens ← parsePositiveInt "max_new_tokens" fs
  let stop ← match jlookup "stop" fs with
    | none => pure none
    | some j => (parseStringArray "stop" j).map some
  let top_p ← requirePositive "top_p" (← getNumOpt fs "top_p")
  let top_k ← requirePositive "top_k" (← getNumOpt fs "top_k")
  let repetition_penalty ← match ← getNumOpt fs "repetition_penalty" with
    | none => pure none
    | some q =>
      if q < -2 then
        throw "repetition_penalty: Number must be greater than or equal to -2"
      else if 2 < q then
        throw "repetition_penalty: Number must be less than or equal to 2"
      else pure (some q)
  pure ⟨temperature, truncate, max_new_tokens, stop, top_p, top_k,
    repetition_penalty, fs.filter (fun p => !(knownParameterKeys.contains p.1))⟩

/-- One entry of `promptExamples`. -/
structure PromptExample where
  title : String
  prompt : String
deriving DecidableEq

/-- The `promptExamples` element schema. -/
def parsePromptExample : Json → Except String PromptExample
  | .obj fs => do
    let tO ← getStrOpt fs "title"
    let t ← match tO with
      | none => throw "title: Required"
      | some s => pure s
    if t.length < 1 then
      throw "title: String must contain at least 1 character(s)"
    let pO ← getStrOpt fs "prompt"
    let p ← match pO with
      | none => throw "prompt: Required"
      | some s => pure s
    if p.length < 1 then
      throw "prompt: String must contain at least 1 character(s)"
    pure ⟨t, p⟩
  | _ => .error "promptExamples: Expected object"

/-- The default `chatPromptTemplate` string of `modelConfig`. -/
def defaultChatPromptTemplate : String :=
  "\x7b\x7bpreprompt\x7d\x7d" ++
  "\x7b\x7b#each messages\x7d\x7d" ++
  "\x7b\x7b#ifUser\x7d\x7d\x7b\x7b@root.userMessageToken\x7d\x7d" ++
  "\x7b\x7bcontent\x7d\x7d\x7b\x7b@root.userMessageEndToken\x7d\x7d" ++
  "\x7b\x7b/ifUser\x7d\x7d" ++
  "\x7b\x7b#ifAssistant\x7d\x7d\x7b\x7b@root.assistantMessageToken\x7d\x7d" ++
  "\x7b\x7bcontent\x7d\x7d\x7b\x7b@root.assistantMessageEndToken\x7d\x7d" ++
  "\x7b\x7b/ifAssistant\x7d\x7d" ++
  "\x7b\x7b/each\x7d\x7d" ++
  "\x7b\x7bassistantMessageToken\x7d\x7d"

/-- A parsed model configuration, the output type of `modelConfig`.  Note
that `endpoints` is `Option`al: the schema marks it `.optional()`. -/
structure ModelConfig where
  id : Option String
  name : String
  displayName : Option String
  description : Option String
  websiteUrl : Option String
  modelUrl : Option String
  datasetName : Option String
  datasetUrl : Option String
  userMessageToken : String
  userMessageEndToken : String
  assistantMessageToken : String
  assistantMessageEndToken : String
  messageEndToken : String
  preprompt : String
  prepromptUrl : Option String
  chatPromptTemplate : String
  promptExamples : Option (List PromptExample)
  endpoints : Option (List Endpoint)
  parameters : Option GenerationParameters

/-- The `promptExamples: z.array(...).optional()` field of `modelConfig`. -/
def parsePromptExamplesField (fs : List (String × Json)) :
    Except String (Option (List PromptExample)) :=
  match jlookup "promptExamples" fs with
  | none => pure none
  | some (.arr xs) => (xs.mapM parsePromptExample).map some
  | some _ => .error "promptExamples: Expected array"

/-- The `endpoints: z.array(combinedEndpoint).optional()` field of
`modelConfig`: an absent field parses to `none`; no default endpoint is
substituted. -/
def parseEndpointsField (urlOk : String → Bool) (env : Env)
    (fs : List (String × Json)) : Except String (Option (List Endpoint)) :=
  match jlookup "endpoints" fs with
  | none => pure none
  | some (.arr xs) => (xs.mapM (parseEndpoint urlOk env)).map some
  | some _ => .error "endpoints: Expected array"

/-- The `parameters` field of `modelConfig`. -/
def parseParametersField (fs : List (String × Json)) :
    Except String (Option GenerationParameters) :=
  match jlookup "parameters" fs with
  | none => pure none
  | some (.obj pfs) => (parseParameters pfs).map some
  | some _ => .error "parameters: Expected object"

/-- The `modelConfig` object schema of `src/lib/server/models.ts`. -/
def parseModelConfig (urlOk : String → Bool) (env : Env) :
    Json → Except String ModelConfig
  | .obj fs => do
    let id ← getStrOpt fs "id"
    let nameO ← getStrOpt fs "name"
    let name ← match nameO with
      | none => throw "name: Required"
      | some s => pure s
    if name.length < 1 then
      throw "name: String must contain at least 1 character(s)"
    let displayName ← requireMin1 "displayName" (← getStrOpt fs "displayName")
    let description ← requireMin1 "description" (← getStrOpt fs "description")
    let websiteUrl ← requireUrl urlOk "websiteUrl" (← getStrOpt fs "websiteUrl")
    let modelUrl ← requireUrl urlOk "modelUrl" (← getStrOpt fs "modelUrl")
    let datasetName ← requireMin1 "datasetName" (← getStrOpt fs "datasetName")
    let datasetUrl ← requireUrl urlOk "datasetUrl" (← getStrOpt fs "datasetUrl")
    let userMessageToken := (← getStrOpt fs "userMessageToken").getD ""
    let userMessageEndToken := (← getStrOpt fs "userMessageEndToken").getD ""
    let assistantMessageToken := (← getStrOpt fs "assistantMessageToken").getD ""
    let assistantMessageEndToken :=
      (← getStrOpt fs "assistantMessageEndToken").getD ""
    let messageEndToken := (← getStrOpt fs "messageEndToken").getD ""
    let preprompt := (← getStrOpt fs "preprompt").getD ""
    let prepromptUrl ← requireUrl urlOk "prepromptUrl" (← getStrOpt fs "prepromptUrl")
    let chatPromptTemplate :=
      (← getStrOpt fs "chatPromptTemplate").getD defaultChatPromptTemplate
    let promptExamples ← parsePromptExamplesField fs
    let endpoints ← parseEndpointsField urlOk env fs
    let parameters ← parseParametersField fs
    pure { id := id, name := name, displayName := displayName,
           description := description, websiteUrl := websiteUrl,
           modelUrl := modelUrl, datasetName := datasetName,
           datasetUrl := datasetUrl, userMessageToken := userMessageToken,
           userMessageEndToken := userMessageEndToken,
           assistantMessageToken := assistantMessageToken,
           assistantMessageEndToken := assistantMessageEndToken,
           messageEndToken := messageEndToken, preprompt := preprompt,
           prepromptUrl := prepromptUrl,
           chatPromptTemplate := chatPromptTemplate,
           promptExamples := promptExamples, endpoints := endpoints,
           parameters := parameters }
  | _ => .error "Expected object, received something else"

/-- The parse of the minimal raw model config holding only the field
`name` with value `"gpt2"`: every defaulted field takes its default, every
optional field is absent. -/
def minimalModelConfig : ModelConfig :=
  { id := none, name := "gpt2", displayName := none, description := none,
    websiteUrl := none, modelUrl := none, datasetName := none,
    datasetUrl := none, userMessageToken := "", userMessageEndToken := "",
    assistantMessageToken := "", assistantMessageEndToken := "",
    messageEndToken := "", preprompt := "",
    prepromptUrl := none, chatPromptTemplate := defaultChatPromptTemplate,
    promptExamples := none, endpoints := none, parameters := none }

/-! # Helper lemmas -/

/-- Peel one `Except` bind from a success hypothesis. -/
theorem except_bind_ok_imp {ε α β : Type} {P : β → Prop} {e : Except ε α}
    {f : α → Except ε β} (hp : ∀ a b, f a = .ok b → P b) :
    ∀ b, e >>= f = .ok b → P b := by
  intro b hb
  cases e with
  | error msg => simp [Bind.bind, Except.bind] at hb
  | ok a => exact hp a b (by simpa [Bind.bind, Except.bind] using hb)

/-- Peel one `Except` bind whose head is known to succeed with value `a`. -/
theorem except_bind_fixed_imp {ε α β : Type} {P : β → Prop} {e : Except ε α}
    {a : α} (he : e = .ok a) {f : α → Except ε β}
    (hp : ∀ b, f a = .ok b → P b) :
    ∀ b, e >>= f = .ok b → P b := by
  intro b hb
  rw [he] at hb
  exact hp b (by simpa [Bind.bind, Except.bind] using hb)

/-- An absent `endpoints` field parses to `none`, not to a default. -/
theorem parseEndpointsField_none (urlOk : String → Bool) (env : Env)
    (fs : List (String × Json)) (h : jlookup "endpoints" fs = none) :
    parseEndpointsField urlOk env fs = .ok none := by
  simp [parseEndpointsField, h]
  rfl

/-- `dropWhile` is idempotent. -/
theorem dropWhile_idem {α : Type} (p : α → Bool) (l : List α) :
    (l.dropWhile p).dropWhile p = l.dropWhile p := by
  induction l with
  | nil => rfl
  | cons c t ih =>
    by_cases h : p c
    · simp [List.dropWhile, h, ih]
    · simp [List.dropWhile, h]

/-- `trimEnd` is idempotent. -/
theorem jsTrimEnd_idem (s : String) : jsTrimEnd (jsTrimEnd s) = jsTrimEnd s := by
  simp [jsTrimEnd, dropWhile_idem]

/-- A stop-sequence trimming step sends right-trimmed strings to
right-trimmed strings. -/
theorem stopStep_trimEnd_fixed {s : String} (st : String)
    (h : jsTrimEnd s = s) : jsTrimEnd (stopStep s st) = stopStep s st := by
  unfold stopStep
  split
  · exact jsTrimEnd_idem _
  · exact h

/-- The stop-sequence loop sends right-trimmed strings to right-trimmed
strings. -/
theorem foldl_stopStep_trimEnd_fixed :
    ∀ (stops : List String) (s : String), jsTrimEnd s = s →
      jsTrimEnd (stops.foldl stopStep s) = stops.foldl stopStep s := by
  intro stops
  induction stops with
  | nil => intro s h; exact h
  | cons st rest ih =>
    intro s h
    exact ih _ (stopStep_trimEnd_fixed st h)

/-- The output of `clean` never carries trailing whitespace. -/
theorem clean_trimEnd_fixed (x p : String) (s : List String) :
    jsTrimEnd (clean x p s) = clean x p s := by
  unfold clean
  exact foldl_stopStep_trimEnd_fixed _ _ (jsTrimEnd_idem _)

/-- The stop-sequence loop is the identity when the text ends with none of
the stop strings. -/
theorem foldl_stopStep_id :
    ∀ (stops : List String) (s : String),
      (∀ st ∈ stops, jsEndsWith s st = false) →
      stops.foldl stopStep s = s := by
  intro stops
  induction stops with
  | nil => intro s _; rfl
  | cons st rest ih =>
    intro s h
    have h1 : jsEndsWith s st = false := h st (by simp)
    have h2 : stopStep s st = s := by simp [stopStep, h1]
    rw [List.foldl_cons, h2]
    exact ih s (fun st2 hm => h st2 (by simp [hm]))

/-- Chunk-request count of the consumption loop when the cancellation
fires during the `k`-th await, starting from await index `i ≤ k`. -/
theorem openaiStreamLoop_requests_eq :
    ∀ (chunks : List String) (k i : Nat), i ≤ k →
      (openaiStreamLoop chunks (some k) i).2 =
        min (k - i + 1) (chunks.length + 1) := by
  intro chunks
  induction chunks with
  | nil =>
    intro k i h
    have h1 : (openaiStreamLoop [] (some k) i).2 = 1 := rfl
    rw [h1, Nat.min_def]
    simp only [List.length_nil]
    split_ifs <;> omega
  | cons v rest ih =>
    intro k i h
    by_cases habort : k ≤ i
    · have h1 : (openaiStreamLoop (v :: rest) (some k) i).2 = 1 := by
        simp [openaiStreamLoop, habort]
      rw [h1, Nat.min_def]
      split_ifs <;> omega
    · have h2 : i + 1 ≤ k := by omega
      have hstep : (openaiStreamLoop (v :: rest) (some k) i).2
          = (openaiStreamLoop rest (some k) (i + 1)).2 + 1 := by
        simp [openaiStreamLoop, habort]
      rw [hstep, ih k (i + 1) h2, Nat.min_def, Nat.min_def]
      simp only [List.length_cons]
      split_ifs <;> omega

/-- Property reads through a spread: the later object wins. -/
theorem jget_append {α : Type} (k : String) (a b : List (String × α)) :
    jget k (a ++ b) = (jget k b).orElse (fun _ => jget k a) := by
  induction a with
  | nil => cases hb : jget k b <;> simp [jget, hb, Option.orElse]
  | cons p a' ih =>
    cases hb : jget k b with
    | none => simp [List.cons_append, jget, ih, hb, Option.orElse]
    | some w => simp [List.cons_append, jget, ih, hb, Option.orElse]

/-! # Claims -/

/-- C1, counterexample: on prompt `"Hello"`, stop sequence `"STOP"` and raw
text `"Hello continuation STOP"`, `clean` does not return `"continuation"`. -/
theorem clean_roundtrip_claim_false :
    clean "Hello continuation STOP" "Hello" ["STOP"] ≠ "continuation" := by
  decide

/-- C1, amended: on prompt `"Hello"`, stop sequence `"STOP"` and raw text
`"Hello continuation STOP"`, `clean` returns `" continuation"` — the prompt
echo and the stop sequence are removed, but the space that separated them
from the continuation survives at the front, because only trailing
whitespace is ever trimmed. -/
theorem clean_roundtrip_leading_space :
    clean "Hello continuation STOP" "Hello" ["STOP"] = " continuation" := by
  decide

/-- C2, counterexample: `clean` is not idempotent.  A raw text beginning
with two copies of the beginning-of-text marker loses one copy per
application, so re-applying `clean` to its own output changes it. -/
theorem clean_not_idempotent :
    clean (clean "<|startoftext|><|startoftext|>abc" "x" []) "x" [] ≠
      clean "<|startoftext|><|startoftext|>abc" "x" [] := by
  decide

/-- C2, amended: `clean` is idempotent on the outputs it cannot reprocess:
whenever its output does not retain the beginning-of-text marker or the
prompt as a strippable leading part, does not end with the separator token,
and does not end with any stop sequence or the end-of-text marker,
re-applying `clean` is a no-op.  (In general a second application can strip
further, as the counterexample shows.) -/
theorem clean_idempotent_on_stable_outputs (x p : String) (s : List String)
    (h1 : trimPre (clean x p s) START_TOKEN = clean x p s)
    (h2 : trimPre (clean x p s) p = clean x p s)
    (h3 : trimSuf (clean x p s) PUBLIC_SEP_TOKEN = clean x p s)
    (h4 : ∀ st ∈ s ++ [END_TOKEN], jsEndsWith (clean x p s) st = false) :
    clean (clean x p s) p s = clean x p s := by
  have expand : ∀ y, clean y p s =
      (s ++ [END_TOKEN]).foldl stopStep
        (jsTrimEnd (trimSuf (trimPre (trimPre y START_TOKEN) p)
          PUBLIC_SEP_TOKEN)) :=
    fun _ => rfl
  rw [expand (clean x p s), h1, h2, h3, clean_trimEnd_fixed,
    foldl_stopStep_id _ _ h4]

/-- C2, witness: the stability hypotheses hold at raw text `"b"`, prompt
`"q"` and no stop sequences, and there re-applying `clean` is a no-op. -/
theorem clean_idempotent_on_stable_outputs_witness :
    (∀ st ∈ ([] : List String) ++ [END_TOKEN],
      jsEndsWith (clean "b" "q" []) st = false) ∧
    clean (clean "b" "q" []) "q" [] = clean "b" "q" [] :=
  ⟨by decide,
   clean_idempotent_on_stable_outputs "b" "q" []
     (by decide) (by decide) (by decide) (by decide)⟩

/-- C3, counterexample: a raw model config with no `endpoints` field (and
no URL fields) does not fail validation — `modelConfig` parses it
successfully, because `endpoints` is declared `.optional()`. -/
theorem modelConfig_without_endpoints_parses :
    (parseModelConfig (fun _ => true) ⟨"hf-token", "openai-key"⟩
      (Json.obj [("name", Json.str "gpt2")])).toOption.isSome = true := by
  rfl

/-- C3, amended: a model config with no `endpoints` field is accepted by
config parsing; the parsed `ModelConfig` then has `endpoints = none` — no
usable TGI default is synthesized, but no validation error is raised
either, so the at-least-one-endpoint invariant is not enforced at parse
time. -/
theorem modelConfig_endpoints_absent_not_defaulted :
    ∀ (urlOk : String → Bool) (env : Env) (fs : List (String × Json)),
      jlookup "endpoints" fs = none →
      ∀ cfg, parseModelConfig urlOk env (.obj fs) = .ok cfg →
        cfg.endpoints = none := by
  intro urlOk env fs h
  simp only [parseModelConfig]
  apply except_bind_ok_imp; intro id
  apply except_bind_ok_imp; intro nameO
  cases nameO with
  | none =>
    intro b hb
    simp [Bind.bind, Except.bind, throw, throwThe, MonadExceptOf.throw] at hb
  | some name =>
    apply except_bind_ok_imp; intro name2
    intro b hb
    split at hb
    · simp [Bind.bind, Except.bind, throw, throwThe, MonadExceptOf.throw] at hb
    · revert hb
      revert b
      apply except_bind_ok_imp; intro l1
      apply except_bind_ok_imp; intro displayName
      apply except_bind_ok_imp; intro l2
      apply except_bind_ok_imp; intro description
      apply except_bind_ok_imp; intro l3
      apply except_bind_ok_imp; intro websiteUrl
      apply except_bind_ok_imp; intro l4
      apply except_bind_ok_imp; intro modelUrl
      apply except_bind_ok_imp; intro l5
      apply except_bind_ok_imp; intro datasetName
      apply except_bind_ok_imp; intro l6
      apply except_bind_ok_imp; intro datasetUrl
      apply except_bind_ok_imp; intro t1
      apply except_bind_ok_imp; intro t2
      apply except_bind_ok_imp; intro t3
      apply except_bind_ok_imp; intro t4
      apply except_bind_ok_imp; intro t5
      apply except_bind_ok_imp; intro t6
      apply except_bind_ok_imp; intro l7
      apply except_bind_ok_imp; intro prepromptUrl
      apply except_bind_ok_imp; intro t7
      apply except_bind_ok_imp; intro tmpl
      apply except_bind_ok_imp; intro pe
      refine except_bind_fixed_imp (parseEndpointsField_none urlOk env fs h) ?_
      apply except_bind_ok_imp; intro params
      intro b hb
      cases hb
      rfl

/-- C3, witness: at the minimal raw config holding only `name`, the parse
succeeds with `minimalModelConfig`, whose `endpoints` field is `none`. -/
theorem modelConfig_endpoints_absent_not_defaulted_witness :
    minimalModelConfig.endpoints = none :=
  modelConfig_endpoints_absent_not_defaulted (fun _ => true) ⟨"hf", "oa"⟩
    [("name", Json.str "gpt2")] rfl minimalModelConfig rfl

/-- C4: `streamToAsyncIterable` calls `releaseLock` on the underlying
reader exactly once on every exit path — normal completion, early
termination by the consumer after any number of values (including after
the first), and an error thrown mid-consumption — for every stream
content. -/
theorem streamToAsyncIterable_releases_exactly_once :
    ∀ (α : Type) (plan : ConsumerPlan) (vs : List α) (c : Nat),
      ((streamToAsyncIterable plan vs c).2).releaseCount = c + 1 := by
  intro α plan vs
  induction vs generalizing plan with
  | nil =>
    intro c
    cases plan with
    | consumeAll => rfl
    | stopAfter n => cases n <;> rfl
    | failAfter n => cases n <;> rfl
  | cons v rest ih =>
    intro c
    cases plan with
    | consumeAll => exact ih _ _
    | stopAfter n =>
      cases n with
      | zero => rfl
      | succ m => exact ih _ _
    | failAfter n =>
      cases n with
      | zero => rfl
      | succ m => exact ih _ _

/-- C5: when the cancellation signal fires during the `k`-th await of the
OpenAI-compatible consumption loop, the loop issues exactly
`min k (chunks + 1)` chunk requests in total — in particular at most `k`,
so no chunk request is ever issued after the signal has fired; the request
in flight resolves, the abort check sees the flag, and the loop breaks. -/
theorem openai_no_requests_after_abort :
    ∀ (chunks : List String) (k : Nat), 1 ≤ k →
      (openaiStreamLoop chunks (some k) 1).2 = min k (chunks.length + 1) ∧
      (openaiStreamLoop chunks (some k) 1).2 ≤ k := by
  intro chunks k h
  have he := openaiStreamLoop_requests_eq chunks k 1 h
  have hk : k - 1 + 1 = k := by omega
  rw [hk] at he
  constructor
  · exact he
  · rw [he, Nat.min_def]
    split_ifs <;> omega

/-- C5, witness: with three upstream chunks pending and the cancellation
firing during the second await, exactly two chunk requests are issued. -/
theorem openai_no_requests_after_abort_witness :
    (openaiStreamLoop ["a", "b", "c"] (some 2) 1).2 = min 2 4 ∧
    (openaiStreamLoop ["a", "b", "c"] (some 2) 1).2 ≤ 2 :=
  openai_no_requests_after_abort ["a", "b", "c"] 2 (by decide)

/-- C6: a backend response with a non-2xx status makes the generation
function fail with an error carrying the response body text, after exactly
one upstream call and with no retry. -/
theorem generate_non2xx_fails_upstream_no_retry :
    ∀ (resp : HttpResponse) (prompt : String) (stop : List String),
      respOk resp = false →
      generateFromDefaultEndpoint resp prompt stop =
        (.error (.upstream (respText resp)), ⟨1⟩) := by
  intro resp prompt stop h
  simp [generateFromDefaultEndpoint, fetchUpstream, h]

/-- C6, witness: a 500 response with body `"boom"` fails with an upstream
error carrying `"boom"`, after one call. -/
theorem generate_non2xx_fails_upstream_no_retry_witness :
    respOk ⟨500, some "boom"⟩ = false ∧
    generateFromDefaultEndpoint ⟨500, some "boom"⟩ "p" [] =
      (.error (.upstream "boom"), ⟨1⟩) :=
  ⟨by decide,
   generate_non2xx_fails_upstream_no_retry ⟨500, some "boom"⟩ "p" []
     (by decide)⟩

/-- C7: a 2xx response with an absent body makes the generation function
fail with the empty-response error rather than return a text result. -/
theorem generate_missing_body_empty_error :
    ∀ (status : Nat) (prompt : String) (stop : List String),
      respOk ⟨status, none⟩ = true →
      generateFromDefaultEndpoint ⟨status, none⟩ prompt stop =
        (.error (.emptyBody "Response body is empty"), ⟨1⟩) := by
  intro status prompt stop h
  simp [generateFromDefaultEndpoint, fetchUpstream, h]

/-- C7, witness: a bodiless 200 response fails with the empty-response
error. -/
theorem generate_missing_body_empty_error_witness :
    respOk ⟨200, none⟩ = true ∧
    generateFromDefaultEndpoint ⟨200, none⟩ "p" [] =
      (.error (.emptyBody "Response body is empty"), ⟨1⟩) :=
  ⟨by decide,
   generate_missing_body_empty_error 200 "p" [] (by decide)⟩

/-- C8: `clean` applies its steps in exactly the specified order — strip
the leading beginning-of-text marker, then strip the echoed prompt prefix,
then strip a trailing separator token, then trim trailing whitespace, then
remove each stop sequence (and finally the end-of-text marker) as a suffix
with re-trimming; in particular prompt-prefix stripping precedes
stop-sequence trimming. -/
theorem clean_applies_steps_in_spec_order :
    ∀ (rawText prompt : String) (stop : List String),
      clean rawText prompt stop = cleanSpecOrdered rawText prompt stop :=
  fun _ _ _ => rfl

/-- C9: in the merged parameter object, request-level overrides win over
the model defaults on every conflicting key, and `return_full_text` is
forced to `false` regardless of either source. -/
theorem newParameters_override_semantics :
    ∀ (defaults overrides : List (String × Json)) (k : String),
      jget k (newParameters defaults overrides) =
        if k = "return_full_text" then some (Json.bool false)
        else (jget k overrides).orElse (fun _ => jget k defaults) := by
  intro d o k
  unfold newParameters
  rw [jget_append, jget_append]
  by_cases h : k = "return_full_text"
  · subst h
    simp [jget, Option.orElse]
  · have hsing : jget k [("return_full_text", Json.bool false)] = none := by
      simp [jget]
      intro hc
      exact absurd hc.symm h
    rw [hsing, if_neg h]
    cases ho : jget k o <;> simp [Option.orElse]

/-- C10: a 2xx response whose body is the non-empty JSON text `"[]"` makes
the generation function fail with the unclassified runtime failure — the
empty parsed array has no element `0`, and the code reads
`results[0].generated_text` without guarding — rather than with the
empty-body error or a text result. -/
theorem generate_empty_array_unclassified_failure :
    ∀ (status : Nat) (prompt : String) (stop : List String),
      respOk ⟨status, some "[]"⟩ = true →
      generateFromDefaultEndpoint ⟨status, some "[]"⟩ prompt stop =
        (.error .jsRuntime, ⟨1⟩) := by
  intro status prompt stop h
  simp [generateFromDefaultEndpoint, fetchUpstream, h]
  rfl

/-- C10, witness: a 200 response with body `"[]"` fails with the
unclassified runtime failure. -/
theorem generate_empty_array_unclassified_failure_witness :
    respOk ⟨200, some "[]"⟩ = true ∧
    generateFromDefaultEndpoint ⟨200, some "[]"⟩ "Hello" ["STOP"] =
      (.error .jsRuntime, ⟨1⟩) :=
  ⟨by decide,
   generate_empty_array_unclassified_failure 200 "Hello" ["STOP"] (by decide)⟩

end ChatUI
